import Mathlib

/-!
Verification development for the narajangter-scraper ingestion pipeline
(`src/openapi_scraper.py`).  The Python source is shallowly embedded:
pure helpers become Lean functions, the external collaborators (HTTP
responses, the PostgreSQL connection) become explicit oracle parameters,
and the store timestamps become an explicit `now : Nat` argument.
-/

namespace Narajangter

/-- Model of the whitespace set stripped by Python's `str.strip()`
(the ASCII whitespace characters that occur in practice). -/
def pyWhitespace (c : Char) : Bool :=
  c = ' ' || c = '\t' || c = '\n' || c = '\r' || c = '\x0b' || c = '\x0c'

/-- Model of Python `str.strip()` on the character list of a string:
drop leading and trailing whitespace. -/
def pyStrip (cs : List Char) : List Char :=
  ((cs.dropWhile pyWhitespace).reverse.dropWhile pyWhitespace).reverse

/-- Embedding of the nested `parse_date` helper of
`NarajangterOpenAPI.parse_notice_data` (src/openapi_scraper.py lines
287-305).  The input is `none` for a Python `None` argument.  The source
first rejects falsy input (`if not date_str`), strips, rejects strings
shorter than 8 characters, then: an all-digit string of length at least
8 is formatted as `YYYY-MM-DD` from its first 8 digits; a string
containing a hyphen of length at least 10 yields its first 10 characters
verbatim; anything else yields `none`.  The source's third branch
(digits again) is unreachable and is therefore not repeated here.
The function is total: the source's `try/except` can never fire. -/
def parse_date (raw : Option String) : Option String :=
  match raw with
  | none => none
  | some s =>
    if s = "" then none
    else
      let cs := pyStrip s.data
      if cs = [] ∨ cs.length < 8 then none
      else if cs.all Char.isDigit = true ∧ 8 ≤ cs.length then
        some ⟨cs.take 4 ++ '-' :: ((cs.drop 4).take 2 ++ '-' :: (cs.drop 6).take 2)⟩
      else if '-' ∈ cs ∧ 10 ≤ cs.length then
        some ⟨cs.take 10⟩
      else none

/-- Embedding of the nested `parse_datetime` helper of
`NarajangterOpenAPI.parse_notice_data` (src/openapi_scraper.py lines
307-325). -/
def parse_datetime (raw : Option String) : Option String :=
  match raw with
  | none => none
  | some s =>
    if s = "" then none
    else
      let cs := pyStrip s.data
      if cs = [] ∨ cs.length < 8 then none
      else if cs.all Char.isDigit = true then
        if 12 ≤ cs.length then
          some ⟨cs.take 4 ++ '-' :: ((cs.drop 4).take 2 ++ '-' ::
            ((cs.drop 6).take 2 ++ ' ' :: ((cs.drop 8).take 2 ++ ':' ::
              ((cs.drop 10).take 2 ++ ":00".data))))⟩
        else if 8 ≤ cs.length then
          some ⟨cs.take 4 ++ '-' :: ((cs.drop 4).take 2 ++ '-' ::
            ((cs.drop 6).take 2 ++ " 00:00:00".data))⟩
        else none
      else if '-' ∈ cs then
        if 19 ≤ cs.length then some ⟨cs.take 19⟩ else none
      else none

/-- Value of a digit list read in base 10 (most significant first). -/
def digitsToNat (cs : List Char) : Nat :=
  cs.foldl (fun a c => a * 10 + (c.toNat - 48)) 0

/-- Truncated integer part of one Python decimal float literal, given as
a character list: optional sign, then digits with at most one `'.'` and
at least one digit overall.  Models `int(float(s))` for the decimal
literals this program meets; exotic literal forms (exponents, `inf`,
`nan`, underscores, surrounding whitespace) are not modelled — `float`
rounding is idealized as exact, which agrees with `int(float(s))` at the
magnitudes exercised here.  Truncation is toward zero, so the result is
the (signed) value of the digits before the dot. -/
def decIntPart (cs : List Char) : Option Nat :=
  let ip := cs.takeWhile (fun c => c != '.')
  match cs.dropWhile (fun c => c != '.') with
  | [] => if ip ≠ [] ∧ ip.all Char.isDigit = true then some (digitsToNat ip) else none
  | '.' :: frac =>
    if (ip ≠ [] ∨ frac ≠ []) ∧ ip.all Char.isDigit = true ∧ frac.all Char.isDigit = true then
      some (digitsToNat ip)
    else none
  | _ :: _ => none

/-- Signed wrapper around `decIntPart`: models `int(float(s))` on a full
literal with optional leading sign. -/
def pyFloatTruncIntChars (cs : List Char) : Option Int :=
  match cs with
  | [] => none
  | c :: rest =>
    if c = '-' then (decIntPart rest).map (fun n => -(n : Int))
    else if c = '+' then (decIntPart rest).map (fun n => (n : Int))
    else (decIntPart (c :: rest)).map (fun n => (n : Int))

/-- Embedding of the nested `parse_price` helper of
`NarajangterOpenAPI.parse_notice_data` (src/openapi_scraper.py lines
328-334): reject falsy input, remove every comma
(`str.replace(",", "")`), then `int(float(...))`; every failure of that
conversion yields `none` (the source's bare `except`). -/
def parse_price (s : String) : Option Int :=
  if s = "" then none
  else pyFloatTruncIntChars (s.data.filter (fun c => c != ','))

/-- Raw upstream item: the upstream JSON fields `parse_notice_data`
reads.  A field is `none` when the key is missing (or carries JSON
null); both are falsy in the source, which is the only distinction the
code makes. -/
structure RawItem where
  bidNtceNo : Option String := none
  bidNtceNm : Option String := none
  dminsttNm : Option String := none
  ntceInsttNm : Option String := none
  bidNtceDt : Option String := none
  bidClseDt : Option String := none
  presmptPrce : Option String := none
  cntrctMthdNm : Option String := none
  bidNtceDtlUrl : Option String := none
  bidNtceDtlCntnts : Option String := none
deriving DecidableEq, Repr

/-- Canonical record produced by `parse_notice_data`.  `raw_data` keeps
the full raw item; the source serializes it with `json.dumps`, of which
only verbatim retention matters, so the value itself is kept. -/
structure ParsedNotice where
  notice_id : String
  title : String
  organization : String
  publish_date : Option String
  deadline_date : Option String
  estimated_price : Option Int
  contract_method : String
  notice_url : String
  detail_content : String
  raw_data : RawItem
deriving DecidableEq, Repr

/-- Embedding of `NarajangterOpenAPI.parse_notice_data`
(src/openapi_scraper.py lines 276-349): each canonical field is pulled
with `raw_item.get(key, '')`; the organization falls back from
`dminsttNm` to `ntceInsttNm` via Python `or` (first operand kept when
truthy, i.e. nonempty). -/
def parse_notice_data (raw : RawItem) : ParsedNotice :=
  { notice_id := raw.bidNtceNo.getD ""
    title := raw.bidNtceNm.getD ""
    organization :=
      let a := raw.dminsttNm.getD ""
      if a ≠ "" then a else raw.ntceInsttNm.getD ""
    publish_date := parse_date (some (raw.bidNtceDt.getD ""))
    deadline_date := parse_datetime (some (raw.bidClseDt.getD ""))
    estimated_price := parse_price (raw.presmptPrce.getD "")
    contract_method := raw.cntrctMthdNm.getD ""
    notice_url := raw.bidNtceDtlUrl.getD ""
    detail_content := raw.bidNtceDtlCntnts.getD ""
    raw_data := raw }

/-- Result dictionary returned by `search_bid_notices`.  The success
dictionary carries no `error` key (here `none`) and the failure
dictionaries carry no `total_count` key, read back with default 0 by
`get_all_notices`, so 0 stands for the missing key. -/
structure SearchResult where
  success : Bool
  total_count : Nat
  items : List RawItem
  error : Option String
deriving DecidableEq, Repr

/-- Content of a well-typed `header` dictionary: each key may be
missing (`none`), in which case `dict.get` supplies the default. -/
structure HeaderDict where
  resultCode : Option String
  resultMsg : Option String
deriving DecidableEq, Repr

/-- Content of a well-typed `body` dictionary. -/
structure BodyDict where
  items : Option (List RawItem)
  totalCount : Option Nat
deriving DecidableEq, Repr

/-- State of one key of the `response` dictionary as the source
inspects it: the key is missing (`dict.get` returns its default `{}`),
present but bound to a non-dict JSON value such as `null` or a list (an
attribute access `.get` on it raises `AttributeError`), or present as a
dict with the given content. -/
inductive JsonField (α : Type) where
  | absent
  | nonDict
  | isDict (a : α)
deriving DecidableEq, Repr

/-- Outcome of one upstream page request, as seen by
`search_bid_notices` after `requests.get` / `response.json()`:
a transport fault (`requests.exceptions.RequestException`), a malformed
body (`json.JSONDecodeError`), a parsed JSON document without the
`response` key, a document whose `response` value is not a dict (on
which `data['response'].get(...)` raises `AttributeError`), or a
`response` dict whose `header` and `body` keys are each missing,
ill-typed, or well-typed dicts. -/
inductive ApiResponse where
  | requestError (msg : String)
  | jsonError (msg : String)
  | missingResponseKey
  | responseNonDict
  | envelope (header : JsonField HeaderDict) (body : JsonField BodyDict)
deriving DecidableEq, Repr

/-- Embedding of `NarajangterOpenAPI.search_bid_notices`
(src/openapi_scraper.py lines 158-233), parameterized by the upstream
outcome.  Result code `"00"` (header default `''`) yields the success
dictionary with the body's items (default `[]`, also used for a falsy
`items` value) and total count (default 0); any other code yields the
failure dictionary with the header message (default `'알 수 없는 오류'`);
a missing `response` key, a transport fault and a JSON fault yield the
same failure shape.  The `try` at lines 197-226 catches only
`RequestException` and `JSONDecodeError`: when the parsed body carries
a non-dict `response`, `header`, or (under result code `"00"`) `body`
value, the attribute access on it raises an `AttributeError` that
matches neither `except` clause and propagates to the caller, modelled
as `Except.error "AttributeError"`. -/
def search_bid_notices (resp : ApiResponse) : Except String SearchResult :=
  match resp with
  | .requestError m => .ok ⟨false, 0, [], some m⟩
  | .jsonError m => .ok ⟨false, 0, [], some m⟩
  | .missingResponseKey => .ok ⟨false, 0, [], some "Invalid response format"⟩
  | .responseNonDict => .error "AttributeError"
  | .envelope header body =>
    match header with
    | .nonDict => .error "AttributeError"
    | .absent => .ok ⟨false, 0, [], some "알 수 없는 오류"⟩
    | .isDict h =>
      if h.resultCode.getD "" = "00" then
        match body with
        | .nonDict => .error "AttributeError"
        | .absent => .ok ⟨true, 0, [], none⟩
        | .isDict b => .ok ⟨true, b.totalCount.getD 0, b.items.getD [], none⟩
      else .ok ⟨false, 0, [], some (h.resultMsg.getD "알 수 없는 오류")⟩

/-- Loop body of `NarajangterOpenAPI.get_all_notices`
(src/openapi_scraper.py lines 235-274), with the per-page search
abstracted as `search : Nat → SearchResult` (page number ↦ result of
`search_bid_notices` for that page).  `remaining` counts the loop
iterations left in `range(1, max_pages + 1)`; the second component
counts how many pages were actually requested.  A failed page, an empty
page, and an accumulated length reaching the page's reported
`total_count` (checked after extending, as in the source) each end the
loop. -/
def drainAux (search : Nat → SearchResult) (page remaining : Nat)
    (acc : List RawItem) (calls : Nat) : List RawItem × Nat :=
  match remaining with
  | 0 => (acc, calls)
  | r + 1 =>
    let res := search page
    if res.success = false then (acc, calls + 1)
    else if res.items = [] then (acc, calls + 1)
    else
      let acc2 := acc ++ res.items
      if res.total_count ≤ acc2.length then (acc2, calls + 1)
      else drainAux search (page + 1) r acc2 (calls + 1)

/-- Embedding of `NarajangterOpenAPI.get_all_notices`, instrumented with
the number of page requests issued. -/
def get_all_noticesC (search : Nat → SearchResult) (maxPages : Nat) :
    List RawItem × Nat :=
  drainAux search 1 maxPages [] 0

/-- Item list returned by `NarajangterOpenAPI.get_all_notices`. -/
def get_all_notices (search : Nat → SearchResult) (maxPages : Nat) : List RawItem :=
  (get_all_noticesC search maxPages).1

/-- One row of the `audit_notices` table (src/openapi_scraper.py lines
79-94); the serial `id` column plays no role in any claim and is
omitted.  Timestamps are abstract instants (`Nat`). -/
structure StoredRow where
  notice_id : String
  title : String
  organization : String
  publish_date : Option String
  deadline_date : Option String
  estimated_price : Option Int
  contract_method : String
  notice_url : String
  detail_content : String
  raw_data : RawItem
  scraped_at : Nat
  updated_at : Nat
deriving DecidableEq, Repr

/-- Row inserted for a fresh notice: both store-managed timestamps
default to the current instant (`DEFAULT CURRENT_TIMESTAMP`). -/
def newRow (n : ParsedNotice) (now : Nat) : StoredRow :=
  { notice_id := n.notice_id
    title := n.title
    organization := n.organization
    publish_date := n.publish_date
    deadline_date := n.deadline_date
    estimated_price := n.estimated_price
    contract_method := n.contract_method
    notice_url := n.notice_url
    detail_content := n.detail_content
    raw_data := n.raw_data
    scraped_at := now
    updated_at := now }

/-- Action of the `ON CONFLICT (notice_id) DO UPDATE SET ...` clause of
the upsert statement (src/openapi_scraper.py lines 111-130) on one row:
a row whose `notice_id` matches gets every non-identity column
overwritten and `updated_at` refreshed; `scraped_at` is not in the SET
list and is untouched; other rows are untouched. -/
def applyConflictUpdate (n : ParsedNotice) (now : Nat) (r : StoredRow) : StoredRow :=
  if r.notice_id = n.notice_id then
    { r with
      title := n.title
      organization := n.organization
      publish_date := n.publish_date
      deadline_date := n.deadline_date
      estimated_price := n.estimated_price
      contract_method := n.contract_method
      notice_url := n.notice_url
      detail_content := n.detail_content
      raw_data := n.raw_data
      updated_at := now }
  else r

/-- Table-level semantics of the upsert SQL executed by
`PostgreSQLConnector.insert_notice`: insert a new row when no row
carries the incoming `notice_id`, otherwise update the conflicting
row(s) in place. -/
def upsertTable (tbl : List StoredRow) (n : ParsedNotice) (now : Nat) : List StoredRow :=
  if tbl.any (fun r => r.notice_id == n.notice_id) then
    tbl.map (applyConflictUpdate n now)
  else tbl ++ [newRow n now]

/-- Outcome of one `PostgreSQLConnector.insert_notice` call as the
pipeline loop observes it: the statement commits, or a `psycopg2.Error`
is raised (caught inside `insert_notice`), or some other exception
escapes `insert_notice`. -/
inductive InsertBehavior where
  | ok
  | dbFault
  | raiseExn (msg : String)
deriving DecidableEq, Repr

/-- Embedding of the control flow of `PostgreSQLConnector.insert_notice`
(src/openapi_scraper.py lines 109-138): a committed statement returns
`true`; a `psycopg2.Error` is caught, the transaction rolled back, and
`false` returned; any other exception propagates (`Except.error`). -/
def insert_notice (b : InsertBehavior) : Except String Bool :=
  match b with
  | .ok => .ok true
  | .dbFault => .ok false
  | .raiseExn m => .error m

/-- State threaded through the per-record loop of
`NarajangterPipeline.run`: the running inserted counter, the run's
error list, and (instrumentation) the 1-based indices of the records for
which `insert_notice` was invoked. -/
structure LoopState where
  inserted : Nat
  errors : List String
  attempts : List Nat
deriving DecidableEq, Repr

/-- Body of the per-record loop of `NarajangterPipeline.run`
(src/openapi_scraper.py lines 397-414) for the record at 1-based index
`idx`: map the raw item; when at least one identity field (`notice_id`,
`title`) is truthy, call `insert_notice` — `true` increments the
inserted counter, `false` only logs a warning, and an escaping exception
is caught and appended to the error list; otherwise skip with a log
line.  `insertB idx` is the store's behaviour on this call. -/
def processOne (insertB : Nat → InsertBehavior) (st : LoopState) (idx : Nat)
    (raw : RawItem) : LoopState :=
  let parsed := parse_notice_data raw
  if parsed.notice_id ≠ "" ∨ parsed.title ≠ "" then
    match insert_notice (insertB idx) with
    | .ok true => { st with inserted := st.inserted + 1, attempts := st.attempts ++ [idx] }
    | .ok false => { st with attempts := st.attempts ++ [idx] }
    | .error m =>
      { st with
        errors := st.errors ++ ["공고 처리 중 오류: " ++ m]
        attempts := st.attempts ++ [idx] }
  else st

/-- Fold of `processOne` over the drained records, indexing from `idx`
as `enumerate(notices, 1)` does. -/
def processAux (insertB : Nat → InsertBehavior) (idx : Nat)
    (notices : List RawItem) (st : LoopState) : LoopState :=
  match notices with
  | [] => st
  | raw :: rest => processAux insertB (idx + 1) rest (processOne insertB st idx raw)

/-- Per-record phase of `NarajangterPipeline.run`: fold over all drained
records starting from index 1 and empty counters. -/
def processNotices (insertB : Nat → InsertBehavior) (notices : List RawItem) : LoopState :=
  processAux insertB 1 notices ⟨0, [], []⟩

/-- Summary dictionary returned by `NarajangterPipeline.run`. -/
structure RunResult where
  success : Bool
  scraped_count : Nat
  inserted_count : Nat
  errors : List String
deriving DecidableEq, Repr

/-- Observable pipeline steps, used to state which phases a run
executes (`disconnected` is the `finally` block's
`self.db.disconnect()`). -/
inductive Event where
  | connected
  | tablesCreated
  | drained
  | disconnected
deriving DecidableEq, Repr

/-- Embedding of `NarajangterPipeline.run` (src/openapi_scraper.py
lines 365-427).  `connectR` and `createR` are the outcomes of
`self.db.connect()` and `self.db.create_tables()` (both re-raise their
database errors); `search` abstracts `search_bid_notices` per page and
`insertB` the store's reaction to each `insert_notice` call.  The outer
`try/except Exception` turns any fault from those two setup steps into
an error entry `"파이프라인 실행 실패: ..."` on the returned summary
(whose `success` stays `false`), and the `finally` block always runs
`disconnect`; when setup succeeds, `scraped_count` is the number of
drained items, the per-record loop runs to completion, and `success` is
set to `true`.  The function is total: `run` always returns a summary. -/
def pipelineRun (connectR createR : Except String Unit)
    (search : Nat → SearchResult) (insertB : Nat → InsertBehavior)
    (maxPages : Nat) : RunResult × List Event :=
  match connectR with
  | .error e => (⟨false, 0, 0, ["파이프라인 실행 실패: " ++ e]⟩, [Event.disconnected])
  | .ok _ =>
    match createR with
    | .error e =>
      (⟨false, 0, 0, ["파이프라인 실행 실패: " ++ e]⟩,
       [Event.connected, Event.disconnected])
    | .ok _ =>
      let notices := get_all_notices search maxPages
      let st := processNotices insertB notices
      (⟨true, notices.length, st.inserted, st.errors⟩,
       [Event.connected, Event.tablesCreated, Event.drained, Event.disconnected])

/-- Raw item with every upstream field missing. -/
def dummyRaw : RawItem := {}

/-- Raw item carrying only a bid-notice title. -/
def titledRaw (t : String) : RawItem := { bidNtceNm := some t }

/-- Three storable raw records for the partial-failure batch scenario. -/
def c1raws : List RawItem := [titledRaw "t1", titledRaw "t2", titledRaw "t3"]

/-- Client delivering the three records on page 1 (total count 3). -/
def c1search : Nat → SearchResult := fun p =>
  if p = 1 then ⟨true, 3, c1raws, none⟩ else ⟨true, 3, [], none⟩

/-- Store behaviour: the second upsert hits a caught database fault. -/
def c1insertDbFault : Nat → InsertBehavior := fun idx =>
  if idx = 2 then .dbFault else .ok

/-- Store behaviour: the second upsert raises an uncaught exception. -/
def c1insertRaise : Nat → InsertBehavior := fun idx =>
  if idx = 2 then .raiseExn "boom" else .ok

/-- Client reporting `total_count = 5` with the five matching records
delivered two per page (the last page carries the single remaining
record). -/
def c3search : Nat → SearchResult := fun p =>
  if p = 1 then ⟨true, 5, [dummyRaw, dummyRaw], none⟩
  else if p = 2 then ⟨true, 5, [dummyRaw, dummyRaw], none⟩
  else if p = 3 then ⟨true, 5, [dummyRaw], none⟩
  else ⟨true, 5, [], none⟩

/-- Client whose every page request fails. -/
def c3failSearch : Nat → SearchResult := fun _ => ⟨false, 0, [], some "HTTP 500"⟩

/-- Client reporting `total_count = 5` but delivering two records on
every page, so page 3 pushes the accumulated count past the total. -/
def c10search : Nat → SearchResult := fun _ => ⟨true, 5, [dummyRaw, dummyRaw], none⟩

/-- Client whose first page succeeds with zero items. -/
def c3emptySearch : Nat → SearchResult := fun _ => ⟨true, 0, [], none⟩

/-- Indices (1-based from `idx`) of the records whose mapped form has at
least one truthy identity field — exactly the records the loop passes to
`insert_notice`, independent of any store behaviour. -/
def eligibleIndices (idx : Nat) : List RawItem → List Nat
  | [] => []
  | raw :: rest =>
    if (parse_notice_data raw).notice_id ≠ "" ∨ (parse_notice_data raw).title ≠ "" then
      idx :: eligibleIndices (idx + 1) rest
    else eligibleIndices (idx + 1) rest

/-- Canonical notice with identity `"A"` and title `"X"`. -/
def noticeAX : ParsedNotice :=
  { notice_id := "A"
    title := "X"
    organization := ""
    publish_date := none
    deadline_date := none
    estimated_price := none
    contract_method := ""
    notice_url := ""
    detail_content := ""
    raw_data := dummyRaw }

/-- The same notice re-ingested with title `"Y"`. -/
def noticeAY : ParsedNotice := { noticeAX with title := "Y" }

/-! Helper lemmas shared by the claim theorems. -/

/-- The loop body records an insert attempt exactly when an identity
field is present, whatever the store does. -/
theorem processOne_attempts (insertB : Nat → InsertBehavior) (st : LoopState)
    (idx : Nat) (raw : RawItem) :
    (processOne insertB st idx raw).attempts =
      if (parse_notice_data raw).notice_id ≠ "" ∨ (parse_notice_data raw).title ≠ "" then
        st.attempts ++ [idx]
      else st.attempts := by
  cases hb : insertB idx <;>
    simp only [processOne, insert_notice, hb] <;> split <;> rfl

/-- The loop body increments the inserted counter by at most one. -/
theorem processOne_inserted_le (insertB : Nat → InsertBehavior) (st : LoopState)
    (idx : Nat) (raw : RawItem) :
    (processOne insertB st idx raw).inserted ≤ st.inserted + 1 := by
  cases hb : insertB idx <;>
    simp only [processOne, insert_notice, hb] <;> split <;> simp

/-- The per-record fold attempts exactly the identity-bearing records,
in order, regardless of store behaviour. -/
theorem processAux_attempts (insertB : Nat → InsertBehavior) (l : List RawItem) :
    ∀ (idx : Nat) (st : LoopState),
    (processAux insertB idx l st).attempts = st.attempts ++ eligibleIndices idx l := by
  induction l with
  | nil => intro idx st; simp [processAux, eligibleIndices]
  | cons raw rest ih =>
    intro idx st
    rw [processAux, ih, processOne_attempts, eligibleIndices]
    split <;> simp

/-- The per-record fold inserts at most one record per item. -/
theorem processAux_inserted_le (insertB : Nat → InsertBehavior) (l : List RawItem) :
    ∀ (idx : Nat) (st : LoopState),
    (processAux insertB idx l st).inserted ≤ st.inserted + l.length := by
  induction l with
  | nil => intro idx st; simp [processAux]
  | cons raw rest ih =>
    intro idx st
    have h1 := ih (idx + 1) (processOne insertB st idx raw)
    have h2 := processOne_inserted_le insertB st idx raw
    rw [processAux]
    calc (processAux insertB (idx + 1) rest (processOne insertB st idx raw)).inserted
        ≤ (processOne insertB st idx raw).inserted + rest.length := h1
      _ ≤ st.inserted + 1 + rest.length := by omega
      _ ≤ st.inserted + (raw :: rest).length := by simp; omega

/-- The drain loop issues at most `remaining` further page requests. -/
theorem drainAux_calls_le (search : Nat → SearchResult) :
    ∀ (remaining page : Nat) (acc : List RawItem) (calls : Nat),
    (drainAux search page remaining acc calls).2 ≤ calls + remaining := by
  intro remaining
  induction remaining with
  | zero => intro page acc calls; simp [drainAux]
  | succ r ih =>
    intro page acc calls
    rw [drainAux]
    split
    · simp
    · split
      · simp
      · dsimp only
        split
        · dsimp only; omega
        · exact le_trans (ih (page + 1) _ (calls + 1)) (by omega)

/-- A list of digits contains no dot, so the dot-split of `decIntPart`
is trivial. -/
theorem digits_dot_split {l : List Char} (h : l.all Char.isDigit = true) :
    l.takeWhile (fun c => c != '.') = l ∧ l.dropWhile (fun c => c != '.') = [] := by
  constructor
  · rw [List.takeWhile_eq_self_iff]
    intro x hx
    have hd := List.all_eq_true.mp h x hx
    simp only [bne_iff_ne, ne_eq]
    rintro rfl
    exact absurd hd (by decide)
  · rw [List.dropWhile_eq_nil_iff]
    intro x hx
    have hd := List.all_eq_true.mp h x hx
    simp only [bne_iff_ne, ne_eq]
    rintro rfl
    exact absurd hd (by decide)

/-- On a nonempty all-digit literal, `decIntPart` returns the digits'
value. -/
theorem decIntPart_digits {l : List Char} (h0 : l ≠ [])
    (h : l.all Char.isDigit = true) : decIntPart l = some (digitsToNat l) := by
  obtain ⟨h1, h2⟩ := digits_dot_split h
  simp only [decIntPart, h1, h2]
  rw [if_pos ⟨h0, h⟩]

/-- On a nonempty all-digit literal, the modelled `int(float(s))`
returns the digits' value. -/
theorem pyFloatTrunc_digits {l : List Char} (h0 : l ≠ [])
    (h : l.all Char.isDigit = true) :
    pyFloatTruncIntChars l = some ((digitsToNat l : Nat) : Int) := by
  cases l with
  | nil => exact absurd rfl h0
  | cons c rest =>
    have hc : c.isDigit = true := List.all_eq_true.mp h c (List.mem_cons_self c rest)
    have hm : c ≠ '-' := by rintro rfl; exact absurd hc (by decide)
    have hp : c ≠ '+' := by rintro rfl; exact absurd hc (by decide)
    rw [pyFloatTruncIntChars, if_neg hm, if_neg hp, decIntPart_digits h0 h]
    rfl

/-! Claim theorems. -/

/-- Claim C1, counterexample.  The claim predicts that a run draining 3
mapped records whose second upsert fails with a store fault reports
`scraped_count = 3`, `inserted_count = 2` and exactly one entry in
`errors`.  On the code, a store fault (`psycopg2.Error`) is caught
inside `insert_notice` and surfaces as the return value `False`, which
the loop only logs: the summary is `(3, 2)` with an empty error list,
so the error list does not have exactly one entry. -/
theorem c1_store_fault_errors_counterexample :
    (pipelineRun (.ok ()) (.ok ()) c1search c1insertDbFault 5).1.scraped_count = 3 ∧
    (pipelineRun (.ok ()) (.ok ()) c1search c1insertDbFault 5).1.inserted_count = 2 ∧
    (pipelineRun (.ok ()) (.ok ()) c1search c1insertDbFault 5).1.errors = [] ∧
    ¬(pipelineRun (.ok ()) (.ok ()) c1search c1insertDbFault 5).1.errors.length = 1 := by
  refine ⟨by decide, by decide, by decide, by decide⟩

/-- Claim C1, amended.  Each drained item is processed independently:
every identity-bearing record is passed to `insert_notice` in order,
whatever the store did on earlier records; an exception escaping an
item's processing is caught, appended to the run's error list, and does
not stop the loop.  A store fault caught inside `insert_notice`
surfaces as `False` and is only logged: for the 3-record run whose
second upsert fails with a store fault the summary is
`scraped_count = 3`, `inserted_count = 2` and zero entries in `errors`,
and an entry appears (still with `inserted_count = 2`) only when the
second upsert raises. -/
theorem c1_partial_failure_amended :
    (∀ (insertB : Nat → InsertBehavior) (notices : List RawItem),
      (processNotices insertB notices).attempts = eligibleIndices 1 notices) ∧
    (pipelineRun (.ok ()) (.ok ()) c1search c1insertDbFault 5).1 = ⟨true, 3, 2, []⟩ ∧
    (pipelineRun (.ok ()) (.ok ()) c1search c1insertRaise 5).1 =
      ⟨true, 3, 2, ["공고 처리 중 오류: boom"]⟩ := by
  refine ⟨fun insertB notices => ?_, by decide, by decide⟩
  simpa [processNotices] using processAux_attempts insertB notices 1 ⟨0, [], []⟩

/-- Claim C2, counterexample.  The claim predicts that a failure to
acquire the store connection propagates out of `run` (the run raises
rather than returning a summary).  On the code, the outer
`except Exception` of `NarajangterPipeline.run` catches it: the run
returns the summary `success = false`, zero counts, the fault as the
only error entry — and only the `finally` disconnect step runs. -/
theorem c2_connect_fault_counterexample :
    pipelineRun (.error "connection refused") (.ok ()) c1search c1insertDbFault 5 =
      (⟨false, 0, 0, ["파이프라인 실행 실패: connection refused"]⟩,
       [Event.disconnected]) := by
  decide

/-- Claim C2, amended.  If the pipeline cannot acquire a store
connection, the fault is caught by the run's top-level handler: the run
returns a summary with `success = false`, zero counts and the fault
recorded in `errors`; no schema creation and no draining is attempted,
and the connection-release step (the `finally` disconnect) still
executes. -/
theorem c2_connect_fault_amended :
    ∀ (e : String) (createR : Except String Unit) (search : Nat → SearchResult)
      (insertB : Nat → InsertBehavior) (maxPages : Nat),
    pipelineRun (.error e) createR search insertB maxPages =
      (⟨false, 0, 0, ["파이프라인 실행 실패: " ++ e]⟩, [Event.disconnected]) ∧
    Event.tablesCreated ∉ (pipelineRun (.error e) createR search insertB maxPages).2 ∧
    Event.drained ∉ (pipelineRun (.error e) createR search insertB maxPages).2 ∧
    Event.disconnected ∈ (pipelineRun (.error e) createR search insertB maxPages).2 := by
  intro e createR search insertB maxPages
  refine ⟨rfl, by simp [pipelineRun], by simp [pipelineRun], by simp [pipelineRun]⟩

/-- Claim C3.  The drain issues at most `max_pages` page requests; it
stops immediately when a page fails or returns zero items; and for the
client that reports `total_count = 5` and delivers the five matching
records two per page, draining with `max_pages = 10` returns exactly
the 5 items of pages 1-3, concatenated in page order, after 3 page
requests — not 10. -/
theorem c3_drain_pages :
    (∀ (search : Nat → SearchResult) (maxPages : Nat),
      (get_all_noticesC search maxPages).2 ≤ maxPages) ∧
    (∀ (search : Nat → SearchResult) (mp : Nat), (search 1).success = false →
      get_all_noticesC search (mp + 1) = ([], 1)) ∧
    (∀ (search : Nat → SearchResult) (mp : Nat), (search 1).items = [] →
      get_all_noticesC search (mp + 1) = ([], 1)) ∧
    (get_all_noticesC c3search 10).1 =
      (c3search 1).items ++ ((c3search 2).items ++ (c3search 3).items) ∧
    (get_all_noticesC c3search 10).1.length = 5 ∧
    (get_all_noticesC c3search 10).2 = 3 := by
  refine ⟨?_, ?_, ?_, by decide, by decide, by decide⟩
  · intro search maxPages
    simpa using drainAux_calls_le search maxPages 1 [] 0
  · intro search mp h
    rw [get_all_noticesC, drainAux, if_pos h]
  · intro search mp h
    rw [get_all_noticesC, drainAux]
    by_cases hs : (search 1).success = false
    · rw [if_pos hs]
    · rw [if_neg hs, if_pos h]

/-- Claim C3, witness: the early-stop parts applied to a client whose
first page fails and to a client whose first page is empty. -/
theorem c3_drain_pages_witness :
    get_all_noticesC c3failSearch (3 + 1) = ([], 1) ∧
    get_all_noticesC c3emptySearch (9 + 1) = ([], 1) :=
  ⟨c3_drain_pages.2.1 c3failSearch 3 (by decide),
   c3_drain_pages.2.2.1 c3emptySearch 9 (by decide)⟩

/-- Claim C4.  `parse_date` returns the `YYYY-MM-DD` string built from
the first 8 digits whenever the stripped input is all digits of length
at least 8; returns the first 10 characters verbatim whenever the
stripped input contains a hyphen and has length at least 10; and
returns `none` on every other shape and on empty or missing input.  It
performs no calendar validation beyond these checks and, being a total
function, never raises.  The stated examples evaluate as claimed. -/
theorem c4_parse_date :
    (∀ s : String,
      parse_date (some s) =
        (if (pyStrip s.data).all Char.isDigit = true ∧ 8 ≤ (pyStrip s.data).length then
          some ⟨(pyStrip s.data).take 4 ++ '-' ::
            (((pyStrip s.data).drop 4).take 2 ++ '-' :: ((pyStrip s.data).drop 6).take 2)⟩
        else if '-' ∈ pyStrip s.data ∧ 10 ≤ (pyStrip s.data).length then
          some ⟨(pyStrip s.data).take 10⟩
        else none)) ∧
    parse_date none = none ∧
    parse_date (some "20240315") = some "2024-03-15" ∧
    parse_date (some "2024-03-15T00:00") = some "2024-03-15" ∧
    parse_date (some "abc") = none := by
  refine ⟨?_, rfl, by decide, by decide, by decide⟩
  intro s
  by_cases hs : s = ""
  · subst hs; decide
  · simp only [parse_date, if_neg hs]
    by_cases h1 : pyStrip s.data = [] ∨ (pyStrip s.data).length < 8
    · rw [if_pos h1]
      have hnd : ¬((pyStrip s.data).all Char.isDigit = true ∧ 8 ≤ (pyStrip s.data).length) := by
        rcases h1 with h | h
        · rw [h]; simp
        · omega
      have hnh : ¬('-' ∈ pyStrip s.data ∧ 10 ≤ (pyStrip s.data).length) := by
        rcases h1 with h | h
        · rw [h]; simp
        · omega
      rw [if_neg hnd, if_neg hnh]
    · rw [if_neg h1]

/-- Claim C5.  Upserting a canonical notice inserts a new row (with
both store timestamps set to the current instant) when no stored row
carries its `notice_id`; on a conflict over `notice_id` it overwrites
every non-identity column (title, organization, publish_date,
deadline_date, estimated_price, contract_method, notice_url,
detail_content, raw_data) with the new values and refreshes
`updated_at`, while leaving `notice_id` and `scraped_at` unchanged and
leaving non-conflicting rows untouched.  Hence upserting `"A"`/`"X"`
and then `"A"`/`"Y"` into an empty table leaves exactly one row for
`"A"`, with title `"Y"`, the first instant's `scraped_at` and the
second instant's `updated_at`. -/
theorem c5_upsert_conflict_overwrite :
    (∀ (tbl : List StoredRow) (n : ParsedNotice) (now : Nat),
      (∀ r ∈ tbl, r.notice_id ≠ n.notice_id) →
      upsertTable tbl n now = tbl ++ [newRow n now]) ∧
    (∀ (tbl : List StoredRow) (n : ParsedNotice) (now : Nat),
      (∃ r ∈ tbl, r.notice_id = n.notice_id) →
      upsertTable tbl n now = tbl.map (applyConflictUpdate n now) ∧
      (upsertTable tbl n now).length = tbl.length) ∧
    (∀ (n : ParsedNotice) (now : Nat) (r : StoredRow), r.notice_id = n.notice_id →
      applyConflictUpdate n now r =
        { r with
          title := n.title
          organization := n.organization
          publish_date := n.publish_date
          deadline_date := n.deadline_date
          estimated_price := n.estimated_price
          contract_method := n.contract_method
          notice_url := n.notice_url
          detail_content := n.detail_content
          raw_data := n.raw_data
          updated_at := now } ∧
      (applyConflictUpdate n now r).scraped_at = r.scraped_at ∧
      (applyConflictUpdate n now r).notice_id = r.notice_id) ∧
    (∀ (n : ParsedNotice) (now : Nat) (r : StoredRow), r.notice_id ≠ n.notice_id →
      applyConflictUpdate n now r = r) ∧
    upsertTable (upsertTable [] noticeAX 1) noticeAY 2 =
      [{ notice_id := "A"
         title := "Y"
         organization := ""
         publish_date := none
         deadline_date := none
         estimated_price := none
         contract_method := ""
         notice_url := ""
         detail_content := ""
         raw_data := dummyRaw
         scraped_at := 1
         updated_at := 2 }] := by
  refine ⟨?_, ?_, ?_, ?_, by decide⟩
  · intro tbl n now h
    rw [upsertTable, if_neg]
    simp only [List.any_eq_true, beq_iff_eq, not_exists]
    intro r
    rw [not_and]
    exact h r
  · intro tbl n now h
    have hc : tbl.any (fun r => r.notice_id == n.notice_id) = true := by
      simp only [List.any_eq_true, beq_iff_eq]
      exact h
    rw [upsertTable, if_pos hc]
    exact ⟨rfl, by simp⟩
  · intro n now r h
    rw [applyConflictUpdate, if_pos h]
    refine ⟨rfl, rfl, rfl⟩
  · intro n now r h
    rw [applyConflictUpdate, if_neg h]

/-- Claim C5, witness: the insert case on the empty table, the conflict
case on the one-row table, and the `scraped_at` frame condition at the
conflicting row. -/
theorem c5_upsert_conflict_overwrite_witness :
    upsertTable [] noticeAX 1 = [] ++ [newRow noticeAX 1] ∧
    upsertTable [newRow noticeAX 1] noticeAY 2 =
      [newRow noticeAX 1].map (applyConflictUpdate noticeAY 2) ∧
    (applyConflictUpdate noticeAY 2 (newRow noticeAX 1)).scraped_at =
      (newRow noticeAX 1).scraped_at :=
  ⟨c5_upsert_conflict_overwrite.1 [] noticeAX 1 (by simp),
   (c5_upsert_conflict_overwrite.2.1 [newRow noticeAX 1] noticeAY 2
      ⟨newRow noticeAX 1, by simp, by decide⟩).1,
   (c5_upsert_conflict_overwrite.2.2.1 noticeAY 2 (newRow noticeAX 1) (by decide)).2.1⟩

/-- Claim C6.  A drained record whose mapped canonical form has both
identity fields empty is skipped entirely: the loop state — inserted
counter, error list, and the record of `insert_notice` attempts — is
unchanged.  A record with at least one identity field present is passed
to `insert_notice`. -/
theorem c6_identity_missing_skip :
    (∀ (insertB : Nat → InsertBehavior) (st : LoopState) (idx : Nat) (raw : RawItem),
      (parse_notice_data raw).notice_id = "" → (parse_notice_data raw).title = "" →
      processOne insertB st idx raw = st) ∧
    (∀ (insertB : Nat → InsertBehavior) (st : LoopState) (idx : Nat) (raw : RawItem),
      ((parse_notice_data raw).notice_id ≠ "" ∨ (parse_notice_data raw).title ≠ "") →
      (processOne insertB st idx raw).attempts = st.attempts ++ [idx]) := by
  constructor
  · intro insertB st idx raw h1 h2
    rw [processOne, if_neg]
    rw [not_or]
    exact ⟨by simpa using h1, by simpa using h2⟩
  · intro insertB st idx raw h
    rw [processOne_attempts, if_pos h]

/-- Claim C6, witness: the all-absent raw item is skipped with the loop
state untouched, and a titled raw item is attempted. -/
theorem c6_identity_missing_skip_witness :
    processOne c1insertDbFault ⟨0, [], []⟩ 1 dummyRaw = ⟨0, [], []⟩ ∧
    (processOne c1insertDbFault ⟨0, [], []⟩ 1 (titledRaw "T")).attempts = [] ++ [1] :=
  ⟨c6_identity_missing_skip.1 c1insertDbFault ⟨0, [], []⟩ 1 dummyRaw
      (by decide) (by decide),
   c6_identity_missing_skip.2 c1insertDbFault ⟨0, [], []⟩ 1 (titledRaw "T")
      (Or.inr (by decide))⟩

/-- Claim C7, counterexample.  The claim asserts that malformed
response bodies are caught and converted to the failure shape, so that
the search never propagates a fault to its caller.  On the code, a body
that parses as JSON but binds `response` to a non-dict value — e.g. the
document `response: null` — passes the `'response' in data` test and
the JSON decode, so neither `except` clause fires, and
`data['response'].get('header', ...)` raises an `AttributeError` that
propagates out of `search_bid_notices`: the search does not return a
result dictionary at all on this input. -/
theorem c7_nondict_response_counterexample :
    search_bid_notices .responseNonDict = .error "AttributeError" ∧
    (search_bid_notices .responseNonDict).toOption = none := by
  exact ⟨rfl, rfl⟩

/-- Claim C7, amended.  For a response whose envelope is well-typed at
every position the code touches, result code `"00"` yields the success
result with the body's item list and total count, and any other result
code yields the failure result with the upstream message (or its
default) and an empty item sequence; transport faults, unparseable-JSON
faults and a missing `response` key are converted to the same failure
shape.  But the `try` catches only `RequestException` and
`JSONDecodeError`: a body that parses as JSON while binding `response`,
`header`, or (under result code `"00"`) `body` to a non-dict value
raises an uncaught `AttributeError` that propagates to the caller — the
search does not convert every malformed body. -/
theorem c7_search_envelope_amended :
    (∀ (h : HeaderDict) (b : BodyDict), h.resultCode = some "00" →
      search_bid_notices (.envelope (.isDict h) (.isDict b)) =
        .ok ⟨true, b.totalCount.getD 0, b.items.getD [], none⟩) ∧
    (∀ (h : HeaderDict) (body : JsonField BodyDict), h.resultCode.getD "" ≠ "00" →
      search_bid_notices (.envelope (.isDict h) body) =
        .ok ⟨false, 0, [], some (h.resultMsg.getD "알 수 없는 오류")⟩) ∧
    (∀ (body : JsonField BodyDict),
      search_bid_notices (.envelope .absent body) =
        .ok ⟨false, 0, [], some "알 수 없는 오류"⟩) ∧
    (∀ m : String, search_bid_notices (.requestError m) = .ok ⟨false, 0, [], some m⟩) ∧
    (∀ m : String, search_bid_notices (.jsonError m) = .ok ⟨false, 0, [], some m⟩) ∧
    search_bid_notices .missingResponseKey =
      .ok ⟨false, 0, [], some "Invalid response format"⟩ ∧
    search_bid_notices .responseNonDict = .error "AttributeError" ∧
    (∀ (body : JsonField BodyDict),
      search_bid_notices (.envelope .nonDict body) = .error "AttributeError") ∧
    (∀ h : HeaderDict, h.resultCode = some "00" →
      search_bid_notices (.envelope (.isDict h) .nonDict) = .error "AttributeError") := by
  refine ⟨?_, ?_, fun body => rfl, fun m => rfl, fun m => rfl, rfl, rfl, fun body => rfl, ?_⟩
  · intro h b hc
    simp only [search_bid_notices]
    rw [if_pos (show h.resultCode.getD "" = "00" by rw [hc]; rfl)]
  · intro h body hc
    simp only [search_bid_notices]
    rw [if_neg hc]
  · intro h hc
    simp only [search_bid_notices]
    rw [if_pos (show h.resultCode.getD "" = "00" by rw [hc]; rfl)]

/-- Claim C7, witness: the success interpretation, the non-`"00"`
failure interpretation with the default message, and the uncaught
`AttributeError` on an ill-typed `body`, each at a concrete envelope. -/
theorem c7_search_envelope_amended_witness :
    search_bid_notices
        (.envelope (.isDict ⟨some "00", none⟩) (.isDict ⟨some [dummyRaw], some 1⟩)) =
      .ok ⟨true, 1, [dummyRaw], none⟩ ∧
    search_bid_notices (.envelope (.isDict ⟨some "99", none⟩) .absent) =
      .ok ⟨false, 0, [], some "알 수 없는 오류"⟩ ∧
    search_bid_notices (.envelope (.isDict ⟨some "00", none⟩) .nonDict) =
      .error "AttributeError" :=
  ⟨c7_search_envelope_amended.1 ⟨some "00", none⟩ ⟨some [dummyRaw], some 1⟩ rfl,
   c7_search_envelope_amended.2.1 ⟨some "99", none⟩ .absent (by decide),
   c7_search_envelope_amended.2.2.2.2.2.2.2.2 ⟨some "00", none⟩ rfl⟩

/-- Claim C8.  `parse_price` strips every comma, parses the remainder
as a decimal number and truncates toward zero; a comma-grouped digit
string therefore parses to the value of its digits, while empty and
non-numeric input yield `none` rather than a fault (the function is
total).  The stated examples evaluate as claimed, including truncation
of a fractional value. -/
theorem c8_parse_price :
    (∀ s : String, s.data.filter (fun c => c != ',') ≠ [] →
      (s.data.filter (fun c => c != ',')).all Char.isDigit = true →
      parse_price s = some ((digitsToNat (s.data.filter (fun c => c != ',')) : Nat) : Int)) ∧
    parse_price "1,234,500" = some 1234500 ∧
    parse_price "" = none ∧
    parse_price "not-a-number" = none ∧
    parse_price "123.75" = some 123 := by
  refine ⟨?_, by decide, by decide, by decide, by decide⟩
  intro s h0 hd
  have hs : ¬s = "" := by rintro rfl; exact h0 rfl
  rw [parse_price, if_neg hs]
  exact pyFloatTrunc_digits h0 hd

/-- Claim C8, witness: the comma-stripping part applied at a concrete
comma-grouped digit string. -/
theorem c8_parse_price_witness : parse_price "7,77" = some 777 :=
  (c8_parse_price.1 "7,77" (by decide) (by decide)).trans (by decide)

/-- Claim C9.  Every pipeline run returns a summary with
`0 ≤ inserted_count ≤ scraped_count`: the inserted counter starts at 0
and grows by at most one per drained item, and `scraped_count` is the
number of drained items (0 on the aborted setup paths). -/
theorem c9_summary_count_invariant :
    ∀ (connectR createR : Except String Unit) (search : Nat → SearchResult)
      (insertB : Nat → InsertBehavior) (maxPages : Nat),
    (pipelineRun connectR createR search insertB maxPages).1.inserted_count ≤
      (pipelineRun connectR createR search insertB maxPages).1.scraped_count := by
  intro connectR createR search insertB maxPages
  cases connectR with
  | error e => simp [pipelineRun]
  | ok u =>
    cases createR with
    | error e => simp [pipelineRun]
    | ok v =>
      simp only [pipelineRun]
      simpa [processNotices] using
        processAux_inserted_le insertB (get_all_notices search maxPages) 1 ⟨0, [], []⟩

/-- Claim C10.  The drain's stop check against `total_count` runs only
after the current page's items are appended, so a client reporting
`total_count = 5` while delivering two items on every page yields 6
drained items after 3 page requests — strictly more than the reported
total; the result is not truncated. -/
theorem c10_drain_overshoot :
    (get_all_noticesC c10search 10).1.length = 6 ∧
    (∀ p : Nat, (c10search p).total_count = 5) ∧
    5 < (get_all_noticesC c10search 10).1.length ∧
    (get_all_noticesC c10search 10).2 = 3 := by
  refine ⟨by decide, fun p => rfl, by decide, by decide⟩

end Narajangter
